import Mathlib

/-!
Verification of the tgblog service (`src/app.py`): a FastAPI app that,
given a topic, fetches recent news headlines from the Currents API and
chains three OpenAI chat-completion calls to produce a blog post.

The Python module is shallowly embedded: the two outbound collaborators
(the news endpoint and the completion endpoint) are passed in as
functions, and each operation additionally returns the list of outbound
requests it issued, so that claims about "zero outbound calls" are
statable.  Every `raise HTTPException(status_code=500, detail=...)` site
of the source becomes one constructor of `AppError`, carrying the data
interpolated into the detail string at that site.
-/

/-- The two secrets read from the environment at process start
(`app.py` lines 14-15).  `none` models an unset variable; Python
truthiness (`if not KEY`) also treats the empty string as unset. -/
structure Config where
  OPENAI_API_KEY : Option String
  CURRENTS_API_KEY : Option String
deriving Repr, DecidableEq

/-- Python truthiness of an `os.getenv` result: `None` and `""` are
falsy, everything else truthy. -/
def isTruthy : Option String → Bool
  | none => false
  | some s => !s.isEmpty

/-- Request body model (`class Topic`, `app.py` line 21). -/
structure Topic where
  topic : String
deriving Repr, DecidableEq

/-- One element of the upstream `news` array; the code reads only the
`title` field (`article["title"]`, `app.py` line 48). -/
structure Article where
  title : String
deriving Repr, DecidableEq

/-- The outbound GET issued by `get_recent_news` (`app.py` lines 31-37):
a fixed URL and the three query parameters. -/
structure NewsRequest where
  url : String
  language : String
  keywords : String
  apiKey : String
deriving Repr, DecidableEq

/-- The upstream news response as the code consumes it: the HTTP status,
the raw body text, and the parsed JSON `news` field (`none` when the key
is absent, so that `response.json().get("news", [])` is `news.getD []`). -/
structure NewsResponse where
  status_code : Nat
  text : String
  news : Option (List Article)
deriving Repr, DecidableEq

/-- One chat message of a completion request. -/
structure Message where
  role : String
  content : String
deriving Repr, DecidableEq

/-- One outbound chat-completion request (`openai.ChatCompletion.create`
call sites, `app.py` lines 60-115).  The fractional sampling parameters
(source values 0.5 and 0.6) are recorded in tenths, so `temperature = 5`
encodes the source's `temperature=0.5`. -/
structure CompletionRequest where
  model : String
  messages : List Message
  max_tokens : Nat
  temperature : Nat
  stop : Option (List String)
  presence_penalty : Option Nat
  frequency_penalty : Option Nat
deriving Repr, DecidableEq

/-- The result record built on line 118 of `app.py`. -/
structure GeneratedContent where
  title : String
  meta_description : String
  post_content : String
deriving Repr, DecidableEq

/-- Every `raise HTTPException(500, ...)` site of `app.py`, one
constructor per site, carrying the data interpolated into its detail. -/
inductive AppError where
  /-- `app.py` line 27: `CURRENTS_API_KEY` unset. -/
  | currentsKeyMissing : AppError
  /-- `app.py` line 53: `OPENAI_API_KEY` unset. -/
  | openaiKeyMissing : AppError
  /-- `app.py` line 40: news endpoint returned a status other than 200;
  carries `response.text`. -/
  | newsFetch (responseText : String) : AppError
  /-- `app.py` line 125: some completion call raised; carries the
  exception description. -/
  | generation (excText : String) : AppError
deriving Repr, DecidableEq

/-- The `status_code=` keyword of each raise site; every site writes 500. -/
def AppError.status_code : AppError → Nat
  | .currentsKeyMissing => 500
  | .openaiKeyMissing => 500
  | .newsFetch _ => 500
  | .generation _ => 500

/-- The `detail=` string of each raise site. -/
def AppError.detail : AppError → String
  | .currentsKeyMissing => "Переменная окружения CURRENTS_API_KEY не установлена"
  | .openaiKeyMissing => "Переменная окружения OPENAI_API_KEY не установлена"
  | .newsFetch t => "Ошибка при получении данных: " ++ t
  | .generation e => "Ошибка при генерации контента: " ++ e

/-- The spec's `ConfigurationError` kind: the two missing-secret sites. -/
def AppError.isConfigurationError : AppError → Bool
  | .currentsKeyMissing => true
  | .openaiKeyMissing => true
  | _ => false

/-- The sentinel returned when the result set is empty
(`app.py` line 46). -/
def noNewsSentinel : String := "Свежих новостей не найдено."

/-- Python's `str.strip()` with no argument, applied to each completion
response (`.content.strip()`, `app.py` lines 75, 93, 115): removes
leading and trailing whitespace. -/
def strip (s : String) : String :=
  String.mk (((s.data.dropWhile Char.isWhitespace).reverse.dropWhile Char.isWhitespace).reverse)

/-- The request built from `url` and `params` on `app.py` lines 31-36. -/
def newsRequest (apiKey topic : String) : NewsRequest :=
  { url := "https://api.currentsapi.services/v1/latest-news"
    language := "ru"
    keywords := topic
    apiKey := apiKey }

/-- `get_recent_news` (`app.py` lines 25-48).  `net` is the outbound HTTP
collaborator (`requests.get`); the second component is the list of
outbound news requests issued. -/
def get_recent_news (cfg : Config) (net : NewsRequest → NewsResponse)
    (topic : String) : Except AppError String × List NewsRequest :=
  if !isTruthy cfg.CURRENTS_API_KEY then
    (.error .currentsKeyMissing, [])
  else
    let req := newsRequest (cfg.CURRENTS_API_KEY.getD "") topic
    let response := net req
    if response.status_code ≠ 200 then
      (.error (.newsFetch response.text), [req])
    else
      let news_data := response.news.getD []
      if news_data.isEmpty then
        (.ok noNewsSentinel, [req])
      else
        (.ok (String.intercalate "\n" ((news_data.take 5).map Article.title)), [req])

/-- The title completion request (`app.py` lines 60-74). -/
def titleRequest (topic recent_news : String) : CompletionRequest :=
  { model := "gpt-4o-mini"
    messages := [{ role := "user"
                   content := "Придумайте привлекательный и точный заголовок для статьи на тему \x27"
                     ++ topic ++ "\x27, с учётом актуальных новостей:\n" ++ recent_news
                     ++ ". Заголовок должен быть интересным и ясно передавать суть темы." }]
    max_tokens := 60
    temperature := 5
    stop := some ["\n"]
    presence_penalty := none
    frequency_penalty := none }

/-- The meta-description completion request (`app.py` lines 78-92). -/
def metaRequest (title : String) : CompletionRequest :=
  { model := "gpt-4o-mini"
    messages := [{ role := "user"
                   content := "Напишите мета-описание для статьи с заголовком: \x27"
                     ++ title ++ "\x27. Оно должно быть полным, информативным и содержать основные ключевые слова." }]
    max_tokens := 120
    temperature := 5
    stop := some ["."]
    presence_penalty := none
    frequency_penalty := none }

/-- The article-body completion request (`app.py` lines 96-114). -/
def postRequest (topic recent_news : String) : CompletionRequest :=
  { model := "gpt-4o-mini"
    messages := [{ role := "user"
                   content := "Напишите подробную статью на тему \x27" ++ topic
                     ++ "\x27, используя последние новости:\n" ++ recent_news
                     ++ ".\nСтатья должна быть:\n1. Информативной и логичной\n3. Иметь четкую структуру с подзаголовками\n5. Иметь вступление, основную часть и заключение\n8. Текст должен быть легким для восприятия и содержательным" }]
    max_tokens := 100
    temperature := 5
    stop := none
    presence_penalty := some 6
    frequency_penalty := some 6 }

/-- `generate_content` (`app.py` lines 51-128).  `compl` is the outbound
completion collaborator: it either returns the text of
`choices[0].message.content` or fails with an exception description (any
failure inside the `try` block — network error, quota, malformed
response — is one `Except.error`).  The last two components log the
outbound news requests and completion requests issued, in order. -/
def generate_content (cfg : Config) (net : NewsRequest → NewsResponse)
    (compl : CompletionRequest → Except String String) (topic : String) :
    Except AppError GeneratedContent × List NewsRequest × List CompletionRequest :=
  if !isTruthy cfg.OPENAI_API_KEY then
    (.error .openaiKeyMissing, [], [])
  else
    match get_recent_news cfg net topic with
    | (.error e, newsLog) => (.error e, newsLog, [])
    | (.ok recent_news, newsLog) =>
      let req1 := titleRequest topic recent_news
      match compl req1 with
      | .error exc => (.error (.generation exc), newsLog, [req1])
      | .ok raw1 =>
        let title := strip raw1
        let req2 := metaRequest title
        match compl req2 with
        | .error exc => (.error (.generation exc), newsLog, [req1, req2])
        | .ok raw2 =>
          let meta_description := strip raw2
          let req3 := postRequest topic recent_news
          match compl req3 with
          | .error exc => (.error (.generation exc), newsLog, [req1, req2, req3])
          | .ok raw3 =>
            (.ok { title := title
                   meta_description := meta_description
                   post_content := strip raw3 }, newsLog, [req1, req2, req3])

/-- The serialized outcome of `POST /generate-post`: FastAPI turns a
normal return into a 200 JSON body and an `HTTPException` into a
`{"detail": ...}` body with the exception's status code. -/
inductive ApiResult where
  | success (body : GeneratedContent) : ApiResult
  | failure (status_code : Nat) (detail : String) : ApiResult
deriving Repr, DecidableEq

/-- The `POST /generate-post` handler (`app.py` lines 131-134) composed
with FastAPI's `HTTPException`-to-response translation. -/
def generate_post_api (cfg : Config) (net : NewsRequest → NewsResponse)
    (compl : CompletionRequest → Except String String) (t : Topic) : ApiResult :=
  match generate_content cfg net compl t.topic with
  | (.ok g, _, _) => .success g
  | (.error e, _, _) => .failure e.status_code e.detail

deriving instance DecidableEq for Except

/-! ### Concrete fixtures used by witnesses and counterexamples -/

/-- Both secrets configured. -/
def cfgBoth : Config := { OPENAI_API_KEY := some "sk-test", CURRENTS_API_KEY := some "cur-key" }

/-- `OPENAI_API_KEY` unset. -/
def cfgNoOpenAI : Config := { OPENAI_API_KEY := none, CURRENTS_API_KEY := some "cur-key" }

/-- `CURRENTS_API_KEY` unset. -/
def cfgNoCurrents : Config := { OPENAI_API_KEY := some "sk-test", CURRENTS_API_KEY := none }

/-- News endpoint: 200 with an empty `news` array. -/
def netEmpty : NewsRequest → NewsResponse :=
  fun _ => { status_code := 200, text := "empty-news-body", news := some [] }

/-- News endpoint: 200 with a body carrying no `news` key at all. -/
def netNoKey : NewsRequest → NewsResponse :=
  fun _ => { status_code := 200, text := "no-news-key-body", news := none }

/-- News endpoint: 200 with one article. -/
def netOne : NewsRequest → NewsResponse :=
  fun _ => { status_code := 200, text := "ok", news := some [{ title := "Заголовок 1" }] }

/-- News endpoint: failing with 503. -/
def netDown : NewsRequest → NewsResponse :=
  fun _ => { status_code := 503, text := "Service Unavailable", news := none }

/-- News endpoint: 201 — a 2xx status that is not 200. -/
def net201 : NewsRequest → NewsResponse :=
  fun _ => { status_code := 201, text := "Created", news := some [{ title := "Т" }] }

/-- Completion endpoint that always fails. -/
def complBoom : CompletionRequest → Except String String := fun _ => .error "boom"

/-- Completion endpoint that always returns the empty string. -/
def complEmpty : CompletionRequest → Except String String := fun _ => .ok ""

/-- Completion endpoint that always returns the fixed text `x`. -/
def complX : CompletionRequest → Except String String := fun _ => .ok "x"

/-! ### Claims -/

/-- Claim C1, counterexample: with the news key configured and the news
endpoint answering 200 with zero articles, `get_recent_news` does NOT
return the English string literal "no recent news found"; the code's
sentinel is the Russian literal of `app.py` line 46. -/
theorem C1_counterexample :
    (netEmpty (newsRequest "cur-key" "ai")).status_code = 200 ∧
    (netEmpty (newsRequest "cur-key" "ai")).news.getD [] = [] ∧
    (get_recent_news cfgBoth netEmpty "ai").1 ≠ Except.ok "no recent news found" := by
  decide

/-- Claim C1, amended: for every topic where the news key is configured
and the news endpoint responds 200 with zero articles, `get_recent_news`
returns exactly the fixed sentinel string (the literal
"Свежих новостей не найдено." of `app.py` line 46), which is not the
empty string. -/
theorem C1_sentinel (cfg : Config) (net : NewsRequest → NewsResponse) (topic : String)
    (hkey : isTruthy cfg.CURRENTS_API_KEY = true)
    (hstatus : (net (newsRequest (cfg.CURRENTS_API_KEY.getD "") topic)).status_code = 200)
    (hzero : (net (newsRequest (cfg.CURRENTS_API_KEY.getD "") topic)).news.getD [] = []) :
    (get_recent_news cfg net topic).1 = Except.ok noNewsSentinel ∧ noNewsSentinel ≠ "" := by
  refine ⟨?_, by decide⟩
  simp [get_recent_news, hkey, hstatus, hzero]

/-- Witness for C1_sentinel at a concrete configuration and endpoint. -/
theorem C1_sentinel_witness :
    isTruthy cfgBoth.CURRENTS_API_KEY = true ∧
    ((get_recent_news cfgBoth netEmpty "ai").1 = Except.ok noNewsSentinel ∧
      noNewsSentinel ≠ "") :=
  ⟨by decide, C1_sentinel cfgBoth netEmpty "ai" (by decide) (by decide) (by decide)⟩

/-- Claim C2: for every topic where the news key is configured and the
news endpoint responds 200 with a non-empty article list, `get_recent_news`
returns the titles of the first 5 articles (all of them when fewer),
joined by newline, preserving upstream ordering; at most 5 titles are
included. -/
theorem C2_titles (cfg : Config) (net : NewsRequest → NewsResponse) (topic : String)
    (l : List Article)
    (hkey : isTruthy cfg.CURRENTS_API_KEY = true)
    (hstatus : (net (newsRequest (cfg.CURRENTS_API_KEY.getD "") topic)).status_code = 200)
    (hnews : (net (newsRequest (cfg.CURRENTS_API_KEY.getD "") topic)).news.getD [] = l)
    (hne : l ≠ []) :
    (get_recent_news cfg net topic).1 =
      Except.ok (String.intercalate "\n" ((l.take 5).map Article.title)) ∧
    ((l.take 5).map Article.title).length ≤ 5 := by
  constructor
  · simp [get_recent_news, hkey, hstatus, hnews, hne]
  · simp [List.length_take]

/-- Witness for C2_titles with a two-article upstream response. -/
theorem C2_titles_witness :
    (get_recent_news cfgBoth
        (fun _ => { status_code := 200, text := "ok",
                    news := some [{ title := "Один" }, { title := "Два" }] }) "ai").1 =
      Except.ok (String.intercalate "\n"
        (([({ title := "Один" } : Article), { title := "Два" }].take 5).map Article.title)) ∧
    (([({ title := "Один" } : Article), { title := "Два" }].take 5).map Article.title).length ≤ 5 :=
  C2_titles cfgBoth _ "ai" [{ title := "Один" }, { title := "Два" }]
    (by decide) (by decide) (by decide) (by decide)

/-- Claim C10: for every topic where the news key is configured and the
news endpoint responds 200 with either no `news` key in the JSON body or
an empty `news` list, `get_recent_news` returns the sentinel and does not
fail — the two cases are indistinguishable. -/
theorem C10_missing_key_is_empty (cfg : Config) (net : NewsRequest → NewsResponse)
    (topic : String)
    (hkey : isTruthy cfg.CURRENTS_API_KEY = true)
    (hstatus : (net (newsRequest (cfg.CURRENTS_API_KEY.getD "") topic)).status_code = 200)
    (hnews : (net (newsRequest (cfg.CURRENTS_API_KEY.getD "") topic)).news = none ∨
             (net (newsRequest (cfg.CURRENTS_API_KEY.getD "") topic)).news = some []) :
    (get_recent_news cfg net topic).1 = Except.ok noNewsSentinel := by
  rcases hnews with h | h <;> simp [get_recent_news, hkey, hstatus, h]

/-- Witness for C10_missing_key_is_empty with a body lacking the news key. -/
theorem C10_witness :
    netNoKey (newsRequest "cur-key" "ai") = { status_code := 200, text := "no-news-key-body", news := none } ∧
    (get_recent_news cfgBoth netNoKey "ai").1 = Except.ok noNewsSentinel :=
  ⟨rfl, C10_missing_key_is_empty cfgBoth netNoKey "ai" (by decide) (by decide) (Or.inl rfl)⟩

/-- Claim C8: for every topic, when the news key is unset (or empty, per
Python truthiness), `get_recent_news` fails with the configuration error
of `app.py` line 27 and issues zero outbound requests. -/
theorem C8_currents_guard (cfg : Config) (net : NewsRequest → NewsResponse) (topic : String)
    (hkey : isTruthy cfg.CURRENTS_API_KEY = false) :
    get_recent_news cfg net topic = (Except.error AppError.currentsKeyMissing, []) ∧
    AppError.currentsKeyMissing.isConfigurationError = true := by
  refine ⟨?_, rfl⟩
  simp [get_recent_news, hkey]

/-- Witness for C8_currents_guard with the news key absent. -/
theorem C8_currents_guard_witness :
    isTruthy cfgNoCurrents.CURRENTS_API_KEY = false ∧
    (get_recent_news cfgNoCurrents netOne "ai" = (Except.error AppError.currentsKeyMissing, []) ∧
      AppError.currentsKeyMissing.isConfigurationError = true) :=
  ⟨by decide, C8_currents_guard cfgNoCurrents netOne "ai" (by decide)⟩

/-- Claim C3, counterexample: the upstream status 201 is 2xx, yet
`get_recent_news` fails with the news-fetch error — the code's test
(`app.py` line 38) is `status_code != 200`, not "non-2xx". -/
theorem C3_counterexample :
    200 ≤ (net201 (newsRequest "cur-key" "ai")).status_code ∧
    (net201 (newsRequest "cur-key" "ai")).status_code < 300 ∧
    (get_recent_news cfgBoth net201 "ai").1 =
      Except.error (AppError.newsFetch "Created") := by
  decide

/-- Claim C3, amended: with the news key configured, `get_recent_news`
fails with the news-fetch error carrying the upstream response body
exactly when the upstream status differs from 200; exactly status 200 is
treated as success.  The error detail is the fixed prefix followed by
the upstream body. -/
theorem C3_status200 (cfg : Config) (net : NewsRequest → NewsResponse) (topic : String)
    (hkey : isTruthy cfg.CURRENTS_API_KEY = true) :
    ((net (newsRequest (cfg.CURRENTS_API_KEY.getD "") topic)).status_code ≠ 200 →
      (get_recent_news cfg net topic).1 =
        Except.error (AppError.newsFetch
          (net (newsRequest (cfg.CURRENTS_API_KEY.getD "") topic)).text)) ∧
    ((net (newsRequest (cfg.CURRENTS_API_KEY.getD "") topic)).status_code = 200 →
      ∃ s, (get_recent_news cfg net topic).1 = Except.ok s) ∧
    ∀ t, (AppError.newsFetch t).detail = "Ошибка при получении данных: " ++ t := by
  refine ⟨fun hne => ?_, fun heq => ?_, fun t => rfl⟩
  · simp [get_recent_news, hkey, hne]
  · by_cases hdat :
      ((net (newsRequest (cfg.CURRENTS_API_KEY.getD "") topic)).news.getD []).isEmpty
    · exact ⟨noNewsSentinel, by simp [get_recent_news, hkey, heq, hdat]⟩
    · refine ⟨String.intercalate "\n"
        ((((net (newsRequest (cfg.CURRENTS_API_KEY.getD "") topic)).news.getD
            []).take 5).map Article.title), ?_⟩
      simp [get_recent_news, hkey, heq, hdat]

/-- Witness for C3_status200 with a 503 upstream response. -/
theorem C3_status200_witness :
    ((netDown (newsRequest "cur-key" "ai")).status_code ≠ 200 →
      (get_recent_news cfgBoth netDown "ai").1 =
        Except.error (AppError.newsFetch (netDown (newsRequest "cur-key" "ai")).text)) ∧
    ((netDown (newsRequest "cur-key" "ai")).status_code = 200 →
      ∃ s, (get_recent_news cfgBoth netDown "ai").1 = Except.ok s) ∧
    ∀ t, (AppError.newsFetch t).detail = "Ошибка при получении данных: " ++ t :=
  C3_status200 cfgBoth netDown "ai" (by decide)

/-- Claim C6: for every topic, when the model-API key is unset (or
empty), `generate_content` fails with the configuration error of
`app.py` line 53 and issues zero outbound requests of either kind. -/
theorem C6_openai_guard (cfg : Config) (net : NewsRequest → NewsResponse)
    (compl : CompletionRequest → Except String String) (topic : String)
    (hkey : isTruthy cfg.OPENAI_API_KEY = false) :
    generate_content cfg net compl topic = (Except.error AppError.openaiKeyMissing, [], []) ∧
    AppError.openaiKeyMissing.isConfigurationError = true := by
  refine ⟨?_, rfl⟩
  simp [generate_content, hkey]

/-- Witness for C6_openai_guard with the model key absent. -/
theorem C6_openai_guard_witness :
    isTruthy cfgNoOpenAI.OPENAI_API_KEY = false ∧
    (generate_content cfgNoOpenAI netOne complX "ai" =
        (Except.error AppError.openaiKeyMissing, [], []) ∧
      AppError.openaiKeyMissing.isConfigurationError = true) :=
  ⟨by decide, C6_openai_guard cfgNoOpenAI netOne complX "ai" (by decide)⟩

/-- Claim C7: for every topic, when the news fetch fails with some error
`e`, `generate_content` fails with that same error `e` unchanged (the
fetch happens before the `try` block, so `e` is never rewrapped as a
generation error) and issues zero completion requests. -/
theorem C7_news_error_propagates (cfg : Config) (net : NewsRequest → NewsResponse)
    (compl : CompletionRequest → Except String String) (topic : String)
    (e : AppError) (newsLog : List NewsRequest)
    (hkey : isTruthy cfg.OPENAI_API_KEY = true)
    (hnews : get_recent_news cfg net topic = (Except.error e, newsLog)) :
    generate_content cfg net compl topic = (Except.error e, newsLog, []) := by
  simp [generate_content, hkey, hnews]

/-- Witness for C7_news_error_propagates: the news endpoint answers 503
and its error reaches the caller of `generate_content` unchanged. -/
theorem C7_witness :
    get_recent_news cfgBoth netDown "ai" =
      (Except.error (AppError.newsFetch "Service Unavailable"),
        [newsRequest "cur-key" "ai"]) ∧
    generate_content cfgBoth netDown complX "ai" =
      (Except.error (AppError.newsFetch "Service Unavailable"),
        [newsRequest "cur-key" "ai"], []) :=
  ⟨rfl, C7_news_error_propagates cfgBoth netDown complX "ai" _ _ (by decide) rfl⟩

/-- Claim C4: with the model key configured and the news fetch
succeeding, if the three sequential completion calls cannot all succeed,
`generate_content` fails with a single generation error (carrying the
underlying cause description) and returns no partial result: its outcome
is not `ok` for any content record. -/
theorem C4_generation_failure (cfg : Config) (net : NewsRequest → NewsResponse)
    (compl : CompletionRequest → Except String String) (topic recent_news : String)
    (newsLog : List NewsRequest)
    (hkey : isTruthy cfg.OPENAI_API_KEY = true)
    (hnews : get_recent_news cfg net topic = (Except.ok recent_news, newsLog))
    (hfail : ∀ t m p : String,
      ¬(compl (titleRequest topic recent_news) = Except.ok t ∧
        compl (metaRequest (strip t)) = Except.ok m ∧
        compl (postRequest topic recent_news) = Except.ok p)) :
    ∃ d, (generate_content cfg net compl topic).1 = Except.error (AppError.generation d) ∧
      ∀ g : GeneratedContent, (generate_content cfg net compl topic).1 ≠ Except.ok g := by
  rcases h1 : compl (titleRequest topic recent_news) with exc | raw1
  · refine ⟨exc, ?_⟩
    simp [generate_content, hkey, hnews, h1]
  · rcases h2 : compl (metaRequest (strip raw1)) with exc | raw2
    · refine ⟨exc, ?_⟩
      simp [generate_content, hkey, hnews, h1, h2]
    · rcases h3 : compl (postRequest topic recent_news) with exc | raw3
      · refine ⟨exc, ?_⟩
        simp [generate_content, hkey, hnews, h1, h2, h3]
      · exact absurd ⟨h1, h2, h3⟩ (hfail raw1 raw2 raw3)

/-- Witness for C4_generation_failure with a completion endpoint that
always fails. -/
theorem C4_witness :
    ∃ d, (generate_content cfgBoth netOne complBoom "ai").1 =
        Except.error (AppError.generation d) ∧
      ∀ g : GeneratedContent,
        (generate_content cfgBoth netOne complBoom "ai").1 ≠ Except.ok g :=
  C4_generation_failure cfgBoth netOne complBoom "ai" "Заголовок 1"
    [newsRequest "cur-key" "ai"] (by decide) rfl
    (fun t m p h => Except.noConfusion h.1)

/-- Claim C5, counterexample: the code never checks that the generated
texts are non-empty — a completion endpoint answering a whitespace-free
empty string makes `generate_content` succeed with all three fields
empty. -/
theorem C5_counterexample :
    (generate_content cfgBoth netOne complEmpty "ai").1 =
      Except.ok { title := "", meta_description := "", post_content := "" } := by
  decide

/-- Claim C5, amended: on success each content field is the
whitespace-stripped text of one completion response, so whenever every
completion response is non-empty after stripping, all three fields of a
successful result are non-empty. -/
theorem C5_nonempty (cfg : Config) (net : NewsRequest → NewsResponse)
    (compl : CompletionRequest → Except String String) (topic : String)
    (g : GeneratedContent)
    (hstrip : ∀ r s, compl r = Except.ok s → strip s ≠ "")
    (hok : (generate_content cfg net compl topic).1 = Except.ok g) :
    g.title ≠ "" ∧ g.meta_description ≠ "" ∧ g.post_content ≠ "" := by
  cases hk : isTruthy cfg.OPENAI_API_KEY with
  | false => simp [generate_content, hk] at hok
  | true =>
    rcases hn : get_recent_news cfg net topic with ⟨r, newsLog⟩
    cases r with
    | error e => simp [generate_content, hk, hn] at hok
    | ok recent_news =>
      rcases h1 : compl (titleRequest topic recent_news) with exc | raw1
      · simp [generate_content, hk, hn, h1] at hok
      · rcases h2 : compl (metaRequest (strip raw1)) with exc | raw2
        · simp [generate_content, hk, hn, h1, h2] at hok
        · rcases h3 : compl (postRequest topic recent_news) with exc | raw3
          · simp [generate_content, hk, hn, h1, h2, h3] at hok
          · simp [generate_content, hk, hn, h1, h2, h3] at hok
            rw [← hok]
            exact ⟨hstrip _ _ h1, hstrip _ _ h2, hstrip _ _ h3⟩

/-- Witness for C5_nonempty with a completion endpoint answering the
fixed text `x`. -/
theorem C5_nonempty_witness :
    ({ title := "x", meta_description := "x", post_content := "x" } : GeneratedContent).title ≠ "" ∧
    ({ title := "x", meta_description := "x", post_content := "x" } : GeneratedContent).meta_description ≠ "" ∧
    ({ title := "x", meta_description := "x", post_content := "x" } : GeneratedContent).post_content ≠ "" :=
  C5_nonempty cfgBoth netOne complX "ai" { title := "x", meta_description := "x", post_content := "x" }
    (fun r s h => by injection h with h2; subst h2; decide) (by decide)

/-- Every raise site of `app.py` writes `status_code=500`. -/
lemma AppError.status_code_all_500 (e : AppError) : e.status_code = 500 := by
  cases e <;> rfl

/-- Every raise site of `app.py` writes a non-empty detail string. -/
lemma AppError.detail_nonempty (e : AppError) : e.detail ≠ "" := by
  cases e with
  | currentsKeyMissing => decide
  | openaiKeyMissing => decide
  | newsFetch t =>
    intro h
    have h2 := congrArg String.data h
    rw [AppError.detail, String.data_append] at h2
    simp at h2
  | generation t =>
    intro h
    have h2 := congrArg String.data h
    rw [AppError.detail, String.data_append] at h2
    simp at h2

/-- Claim C9: every failure of `POST /generate-post` — configuration,
news-fetch, or generation — is serialized with HTTP status 500 and a
non-empty human-readable detail; no failure kind maps to any other
status code. -/
theorem C9_uniform_500 (cfg : Config) (net : NewsRequest → NewsResponse)
    (compl : CompletionRequest → Except String String) (t : Topic)
    (s : Nat) (d : String)
    (hfail : generate_post_api cfg net compl t = ApiResult.failure s d) :
    s = 500 ∧ d ≠ "" := by
  rcases hg : generate_content cfg net compl t.topic with ⟨r, logs⟩
  cases r with
  | ok g => simp [generate_post_api, hg] at hfail
  | error e =>
    rw [generate_post_api, hg] at hfail
    injection hfail with hs hd
    subst hs
    subst hd
    exact ⟨e.status_code_all_500, e.detail_nonempty⟩

/-- Witness for C9_uniform_500: the request fails on the unset model key
and the serialized response carries status 500 and a non-empty detail. -/
theorem C9_uniform_500_witness :
    (500 : Nat) = 500 ∧
    "Переменная окружения OPENAI_API_KEY не установлена" ≠ "" :=
  C9_uniform_500 cfgNoOpenAI netOne complX { topic := "ai" } 500
    "Переменная окружения OPENAI_API_KEY не установлена" rfl
